import Mathlib

/-!
Verification of the SmartLightingCalculator core (src/app.py).

Shallow embedding: Python ints are `ℤ`, Python floats are `ℚ`
(the arithmetic of the engine is closed-form rational arithmetic),
Python `round(x, 2)` (round-half-to-even) is `round2`, and strings are
Lean `String`s.  The fallible `calculate_savings` — which returns `None`
on incomplete data and can raise `ZeroDivisionError` when
`total_lights` is zero — returns `Except PyError (Option SavingsResult)`,
where `.ok none` models the Python `return None`.
-/

/-- Floor of a rational.  `Rat.den` is always positive, so Euclidean
division of the numerator by the denominator is floor division. -/
def ratFloor (q : ℚ) : ℤ := Int.ediv q.num q.den

/-- Round-half-to-even to the nearest integer, mirroring Python `round`. -/
def pyRound (q : ℚ) : ℤ :=
  let n := ratFloor q
  let frac := q - n
  if frac < 1/2 then n
  else if 1/2 < frac then n + 1
  else if n % 2 = 0 then n else n + 1

/-- Python `round(x, 2)`: round to 2 decimal places. -/
def round2 (q : ℚ) : ℚ := (pyRound (q * 100) : ℚ) / 100

/-- Decimal rendering of a rational, standing in for Python's string
interpolation of a number (`f"{x}"`).  Integers render without a decimal
point and tenths render with one digit; the claims under verification do
not depend on the exact rendering, only on which data appear in it. -/
def ratStr (q : ℚ) : String :=
  if q.den = 1 then toString q.num
  else if q.den = 10 then toString (Int.ediv q.num 10) ++ "." ++ toString (q.num.natAbs % 10)
  else toString q.num ++ "/" ++ toString q.den

/-- Does `needle` occur as a contiguous substring of the second list?
Used only to state properties about what a message string carries. -/
def listHasSub (needle : List Char) : List Char → Bool
  | [] => needle.isEmpty
  | c :: rest => needle.isPrefixOf (c :: rest) || listHasSub needle rest

/-- One entry of `operation_schedule`: the dict
`{'duration': float, 'lights': int}` built at src/app.py:324-327. -/
structure Period where
  duration : ℚ
  lights : ℤ

/-- One entry of `period_details` (src/app.py:108-118).  The `period`
field is the display label `f"{round(duration, 2)} hours"`. -/
structure PeriodDetail where
  period : String
  lights_on : ℤ
  original_consumption : ℚ
  smart_high_hours : ℚ
  smart_low_hours : ℚ
  smart_high_consumption : ℚ
  smart_low_consumption : ℚ
  smart_total_consumption : ℚ
  period_savings : ℚ

/-- The result dict returned by `calculate_savings` (src/app.py:125-134). -/
structure SavingsResult where
  daily_savings_kwh : ℚ
  annual_savings_kwh : ℚ
  annual_savings_sgd : ℚ
  per_light_annual_savings : ℚ
  six_year_savings : ℚ
  period_details : List PeriodDetail
  original_daily_consumption : ℚ
  smart_daily_consumption : ℚ

/-- The `self.data` dict of `SmartLightingCalculator` (src/app.py:43-53).
Every field that `__init__` sets to `None` is an `Option`;
`operation_schedule` is initialized to the empty collection `{}` — never
to `None` — so it is a plain list here. -/
structure CalculatorData where
  project_name : Option String
  total_lights : Option ℤ
  original_wattage : Option ℚ
  electricity_rate : Option ℚ
  operation_schedule : List Period
  smart_light_high_wattage : Option ℚ
  smart_light_low_wattage : Option ℚ
  high_power_ratio : Option ℚ

/-- The `self.data` dict exactly as `__init__` leaves it. -/
def initialData : CalculatorData :=
  { project_name := none
    total_lights := none
    original_wattage := none
    electricity_rate := none
    operation_schedule := []
    smart_light_high_wattage := none
    smart_light_low_wattage := none
    high_power_ratio := none }

/-- Exceptions the calculation can raise. -/
inductive PyError where
  | zeroDivisionError

/-- `self.common_sense_rules` (src/app.py:54-60): field name ↦ inclusive
(min, max) bounds. -/
def common_sense_rules : List (String × ℚ × ℚ) :=
  [("total_lights", 1, 10000),
   ("original_wattage", 1, 400),
   ("electricity_rate", 1/10, 1),
   ("smart_light_high_wattage", 5, 20),
   ("smart_light_low_wattage", 1, 5)]

/-- The f-string `f"Input value should be between {min_val} and {max_val}"`
of src/app.py:67.  Note that it interpolates only the two bounds. -/
def rangeMessage (min_val max_val : ℚ) : String :=
  "Input value should be between " ++ ratStr min_val ++ " and " ++ ratStr max_val

/-- `SmartLightingCalculator.validate_input` (src/app.py:62-68), on a
value already coerced to a number. -/
def validate_input (key : String) (value : ℚ) : Bool × String :=
  match common_sense_rules.lookup key with
  | some (min_val, max_val) =>
    if ¬ (min_val ≤ value ∧ value ≤ max_val) then
      (false, rangeMessage min_val max_val)
    else
      (true, "")
  | none => (true, "")

/-- `SmartLightingCalculator.calculate_high_brightness` (src/app.py:31-41). -/
def calculate_high_brightness (input_wattage : ℚ) : ℤ :=
  if input_wattage ≤ 20 then 10
  else if input_wattage ≤ 24 then 12
  else if input_wattage ≤ 36 then 16
  else if input_wattage ≤ 60 then 18
  else 20

/-- `period_original` of one loop iteration (src/app.py:89):
`(lights_on * original_wattage * hours) / 1000`. -/
def periodOriginalKwh (original_wattage : ℚ) (period : Period) : ℚ :=
  ((period.lights : ℚ) * original_wattage * period.duration) / 1000

/-- `period_smart` of one loop iteration (src/app.py:93-104): the split
into high/low hours applies only when `lights_on > 0`; otherwise every
smart-side quantity is exactly 0. -/
def periodSmartKwh (hw lw high_power_ratio low_power_ratio : ℚ) (period : Period) : ℚ :=
  if period.lights > 0 then
    let high_hours := period.duration * high_power_ratio
    let low_hours := period.duration * low_power_ratio
    ((period.lights : ℚ) * hw * high_hours) / 1000 + ((period.lights : ℚ) * lw * low_hours) / 1000
  else 0

/-- The `period_details` entry appended by one loop iteration
(src/app.py:93-118), with each displayed value rounded to 2 decimals. -/
def mkPeriodDetail (ow hw lw high_power_ratio low_power_ratio : ℚ) (period : Period) :
    PeriodDetail :=
  let period_original := periodOriginalKwh ow period
  let high_hours := if period.lights > 0 then period.duration * high_power_ratio else 0
  let low_hours := if period.lights > 0 then period.duration * low_power_ratio else 0
  let period_high :=
    if period.lights > 0 then ((period.lights : ℚ) * hw * high_hours) / 1000 else 0
  let period_low :=
    if period.lights > 0 then ((period.lights : ℚ) * lw * low_hours) / 1000 else 0
  let period_smart := period_high + period_low
  { period := ratStr (round2 period.duration) ++ " hours"
    lights_on := period.lights
    original_consumption := round2 period_original
    smart_high_hours := round2 high_hours
    smart_low_hours := round2 low_hours
    smart_high_consumption := round2 period_high
    smart_low_consumption := round2 period_low
    smart_total_consumption := round2 period_smart
    period_savings := round2 (period_original - period_smart) }

/-- `original_daily_consumption` accumulated over the loop (src/app.py:90). -/
def originalDailyConsumption (ow : ℚ) (sched : List Period) : ℚ :=
  (sched.map (periodOriginalKwh ow)).sum

/-- `smart_daily_consumption` accumulated over the loop (src/app.py:105). -/
def smartDailyConsumption (hw lw high_power_ratio low_power_ratio : ℚ)
    (sched : List Period) : ℚ :=
  (sched.map (periodSmartKwh hw lw high_power_ratio low_power_ratio)).sum

/-- `SmartLightingCalculator.calculate_savings` (src/app.py:70-134).
`if None in self.data.values(): return None` is the catch-all row of the
match: `operation_schedule` is never `None` (it starts as `{}`), so only
the seven `None`-initialized fields can trigger the early return.  The
source line `self.data.get('high_power_ratio', 0.25)` can never deliver
the default 0.25: the key always exists, and the value `None` has already
caused the early return, so at this point `.get` returns the stored
ratio.  Python raises `ZeroDivisionError` when dividing by the integer
`total_lights == 0`; for any non-zero integer the division succeeds. -/
def calculate_savings (self : CalculatorData) : Except PyError (Option SavingsResult) :=
  match self.project_name, self.total_lights, self.original_wattage, self.electricity_rate,
      self.smart_light_high_wattage, self.smart_light_low_wattage, self.high_power_ratio with
  | some _, some total_lights, some original_wattage, some electricity_rate,
      some smart_light_high_wattage, some smart_light_low_wattage, some high_power_ratio =>
    let low_power_ratio := 1 - high_power_ratio
    let original_daily_consumption := originalDailyConsumption original_wattage self.operation_schedule
    let smart_daily_consumption :=
      smartDailyConsumption smart_light_high_wattage smart_light_low_wattage
        high_power_ratio low_power_ratio self.operation_schedule
    let period_details :=
      self.operation_schedule.map
        (mkPeriodDetail original_wattage smart_light_high_wattage smart_light_low_wattage
          high_power_ratio low_power_ratio)
    let daily_savings_kwh := original_daily_consumption - smart_daily_consumption
    let annual_savings_kwh := daily_savings_kwh * 365
    let annual_savings_sgd := annual_savings_kwh * electricity_rate
    if total_lights = 0 then
      Except.error PyError.zeroDivisionError
    else
      Except.ok (some
        { daily_savings_kwh := round2 daily_savings_kwh
          annual_savings_kwh := round2 annual_savings_kwh
          annual_savings_sgd := round2 annual_savings_sgd
          per_light_annual_savings := round2 (annual_savings_sgd / (total_lights : ℚ))
          six_year_savings := round2 (annual_savings_sgd * 6)
          period_details := period_details
          original_daily_consumption := round2 original_daily_consumption
          smart_daily_consumption := round2 smart_daily_consumption })
  | _, _, _, _, _, _, _ => Except.ok none

/-- A wall-clock time with no date component (`datetime.time`):
hour 0-23, minute 0-59. -/
structure WallTime where
  hour : ℕ
  minute : ℕ

/-- `calculate_duration` (src/app.py:260-270): minutes since midnight,
adding a day when the period crosses midnight, result in hours. -/
def calculate_duration (start_time end_time : WallTime) : ℚ :=
  let start_minutes : ℤ := start_time.hour * 60 + start_time.minute
  let end_minutes : ℤ := end_time.hour * 60 + end_time.minute
  let end_adjusted := if end_minutes < start_minutes then end_minutes + 24 * 60 else end_minutes
  ((end_adjusted - start_minutes : ℤ) : ℚ) / 60

theorem round2_zero : round2 0 = 0 := by
  norm_num [round2, pyRound, ratFloor]

/-- Helper: on a complete parameter set with non-zero `total_lights`,
`calculate_savings` returns exactly the record built by the source. -/
theorem calculate_savings_complete_eq (pn : String) (tl : ℤ) (ow er hw lw hr : ℚ)
    (sched : List Period) (htl : tl ≠ 0) :
    calculate_savings ⟨some pn, some tl, some ow, some er, sched, some hw, some lw, some hr⟩ =
      Except.ok (some
        { daily_savings_kwh :=
            round2 (originalDailyConsumption ow sched - smartDailyConsumption hw lw hr (1 - hr) sched)
          annual_savings_kwh :=
            round2 ((originalDailyConsumption ow sched - smartDailyConsumption hw lw hr (1 - hr) sched) * 365)
          annual_savings_sgd :=
            round2 ((originalDailyConsumption ow sched - smartDailyConsumption hw lw hr (1 - hr) sched) * 365 * er)
          per_light_annual_savings :=
            round2 ((originalDailyConsumption ow sched - smartDailyConsumption hw lw hr (1 - hr) sched) * 365 * er / (tl : ℚ))
          six_year_savings :=
            round2 ((originalDailyConsumption ow sched - smartDailyConsumption hw lw hr (1 - hr) sched) * 365 * er * 6)
          period_details := sched.map (mkPeriodDetail ow hw lw hr (1 - hr))
          original_daily_consumption := round2 (originalDailyConsumption ow sched)
          smart_daily_consumption := round2 (smartDailyConsumption hw lw hr (1 - hr) sched) }) := by
  unfold calculate_savings
  simp only [if_neg htl]

/-- C1: For every fully-populated parameter set (non-zero validated
`total_lights`), the scalar fields of the result are the 2-decimal
roundings of `daily = original − smart` (daily totals accumulated at
full precision), `annual_kwh = daily * 365`,
`annual_sgd = annual_kwh * rate`, `per_light = annual_sgd / total_lights`
and `six_year = annual_sgd * 6`; the section-8 scenario yields
168.0 / 61320.0 / 18396.0 / 36.79 / 110376.0, and negative savings are
preserved, never clamped. -/
theorem calculate_savings_scalar_formulas :
    (∀ (pn : String) (tl : ℤ) (ow er hw lw hr : ℚ) (sched : List Period), tl ≠ 0 →
      ∃ r : SavingsResult,
        calculate_savings ⟨some pn, some tl, some ow, some er, sched, some hw, some lw, some hr⟩
            = Except.ok (some r) ∧
        r.daily_savings_kwh =
          round2 (originalDailyConsumption ow sched - smartDailyConsumption hw lw hr (1 - hr) sched) ∧
        r.annual_savings_kwh =
          round2 ((originalDailyConsumption ow sched - smartDailyConsumption hw lw hr (1 - hr) sched) * 365) ∧
        r.annual_savings_sgd =
          round2 ((originalDailyConsumption ow sched - smartDailyConsumption hw lw hr (1 - hr) sched) * 365 * er) ∧
        r.per_light_annual_savings =
          round2 ((originalDailyConsumption ow sched - smartDailyConsumption hw lw hr (1 - hr) sched) * 365 * er / (tl : ℚ)) ∧
        r.six_year_savings =
          round2 ((originalDailyConsumption ow sched - smartDailyConsumption hw lw hr (1 - hr) sched) * 365 * er * 6) ∧
        r.original_daily_consumption = round2 (originalDailyConsumption ow sched) ∧
        r.smart_daily_consumption = round2 (smartDailyConsumption hw lw hr (1 - hr) sched)) ∧
    (∃ r : SavingsResult,
      calculate_savings
          ⟨some "Demo", some 500, some 18, some (3/10), [⟨24, 500⟩], some 10, some 2, some (1/4)⟩
          = Except.ok (some r) ∧
      r.daily_savings_kwh = 168 ∧ r.annual_savings_kwh = 61320 ∧
      r.annual_savings_sgd = 18396 ∧ r.per_light_annual_savings = 3679/100 ∧
      r.six_year_savings = 110376) ∧
    (∃ r : SavingsResult,
      calculate_savings
          ⟨some "Neg", some 10, some 5, some (3/10), [⟨24, 10⟩], some 20, some 5, some (1/4)⟩
          = Except.ok (some r) ∧
      r.daily_savings_kwh = -(9/10) ∧ r.daily_savings_kwh < 0) := by
  refine ⟨?_, ?_, ?_⟩
  · intro pn tl ow er hw lw hr sched htl
    exact ⟨_, calculate_savings_complete_eq pn tl ow er hw lw hr sched htl,
      rfl, rfl, rfl, rfl, rfl, rfl, rfl⟩
  · refine ⟨_, calculate_savings_complete_eq _ _ _ _ _ _ _ _ (by norm_num), ?_, ?_, ?_, ?_, ?_⟩ <;>
      norm_num [originalDailyConsumption, smartDailyConsumption, periodOriginalKwh,
        periodSmartKwh, round2, pyRound, ratFloor]
  · refine ⟨_, calculate_savings_complete_eq _ _ _ _ _ _ _ _ (by norm_num), ?_, ?_⟩ <;>
      norm_num [originalDailyConsumption, smartDailyConsumption, periodOriginalKwh,
        periodSmartKwh, round2, pyRound, ratFloor]

/-- C1 witness: the general formula part instantiated at the section-8
scenario. -/
theorem calculate_savings_scalar_formulas_witness :
    ∃ r : SavingsResult,
      calculate_savings ⟨some "Demo", some 500, some 18, some (3/10), [⟨24, 500⟩],
          some 10, some 2, some (1/4)⟩ = Except.ok (some r) ∧
      r.daily_savings_kwh =
        round2 (originalDailyConsumption 18 [⟨24, 500⟩] -
          smartDailyConsumption 10 2 (1/4) (1 - 1/4) [⟨24, 500⟩]) ∧
      r.annual_savings_kwh =
        round2 ((originalDailyConsumption 18 [⟨24, 500⟩] -
          smartDailyConsumption 10 2 (1/4) (1 - 1/4) [⟨24, 500⟩]) * 365) ∧
      r.annual_savings_sgd =
        round2 ((originalDailyConsumption 18 [⟨24, 500⟩] -
          smartDailyConsumption 10 2 (1/4) (1 - 1/4) [⟨24, 500⟩]) * 365 * (3/10)) ∧
      r.per_light_annual_savings =
        round2 ((originalDailyConsumption 18 [⟨24, 500⟩] -
          smartDailyConsumption 10 2 (1/4) (1 - 1/4) [⟨24, 500⟩]) * 365 * (3/10) / ((500 : ℤ) : ℚ)) ∧
      r.six_year_savings =
        round2 ((originalDailyConsumption 18 [⟨24, 500⟩] -
          smartDailyConsumption 10 2 (1/4) (1 - 1/4) [⟨24, 500⟩]) * 365 * (3/10) * 6) ∧
      r.original_daily_consumption = round2 (originalDailyConsumption 18 [⟨24, 500⟩]) ∧
      r.smart_daily_consumption = round2 (smartDailyConsumption 10 2 (1/4) (1 - 1/4) [⟨24, 500⟩]) :=
  calculate_savings_scalar_formulas.1 "Demo" 500 18 (3/10) 10 2 (1/4) [⟨24, 500⟩] (by norm_num)

/-- C2 counterexample: with every `None`-initialized field set but
`operation_schedule` still at its initial (unset) empty value,
`calculate_savings` returns a result, not the `Unavailable` signal —
refuting the claim that an unset `operation_schedule` yields
`Unavailable`. -/
theorem unset_schedule_not_unavailable :
    calculate_savings
        { initialData with
          project_name := some "Demo"
          total_lights := some 500
          original_wattage := some 18
          electricity_rate := some (3/10)
          smart_light_high_wattage := some 10
          smart_light_low_wattage := some 2
          high_power_ratio := some (1/4) }
      = Except.ok (some ⟨0, 0, 0, 0, 0, [], 0, 0⟩) ∧
    calculate_savings
        { initialData with
          project_name := some "Demo"
          total_lights := some 500
          original_wattage := some 18
          electricity_rate := some (3/10)
          smart_light_high_wattage := some 10
          smart_light_low_wattage := some 2
          high_power_ratio := some (1/4) }
      ≠ Except.ok none := by
  constructor
  · rw [show ({ initialData with
          project_name := some "Demo"
          total_lights := some 500
          original_wattage := some 18
          electricity_rate := some (3/10)
          smart_light_high_wattage := some 10
          smart_light_low_wattage := some 2
          high_power_ratio := some (1/4) } : CalculatorData)
        = ⟨some "Demo", some 500, some 18, some (3/10), [], some 10, some 2, some (1/4)⟩
      from rfl]
    rw [calculate_savings_complete_eq _ _ _ _ _ _ _ _ (by norm_num)]
    norm_num [originalDailyConsumption, smartDailyConsumption, SavingsResult.mk.injEq,
      round2_zero]
  · intro h
    rw [show ({ initialData with
          project_name := some "Demo"
          total_lights := some 500
          original_wattage := some 18
          electricity_rate := some (3/10)
          smart_light_high_wattage := some 10
          smart_light_low_wattage := some 2
          high_power_ratio := some (1/4) } : CalculatorData)
        = ⟨some "Demo", some 500, some 18, some (3/10), [], some 10, some 2, some (1/4)⟩
      from rfl] at h
    rw [calculate_savings_complete_eq _ _ _ _ _ _ _ _ (by norm_num)] at h
    simp at h

/-- C2 amended: `calculate_savings` returns the `Unavailable` signal
(`None`) exactly when one of the seven `None`-initialized required
fields is unset; `operation_schedule` starts as an empty collection
rather than `None`, so an unset schedule cannot trigger the signal, and
a `SavingsResult` is returned only when all seven fields are set. -/
theorem unavailable_iff_missing_field :
    (∀ d : CalculatorData,
        d.project_name = none ∨ d.total_lights = none ∨ d.original_wattage = none ∨
          d.electricity_rate = none ∨ d.smart_light_high_wattage = none ∨
          d.smart_light_low_wattage = none ∨ d.high_power_ratio = none →
        calculate_savings d = Except.ok none) ∧
    (∀ (d : CalculatorData) (r : SavingsResult),
        calculate_savings d = Except.ok (some r) →
        d.project_name.isSome = true ∧ d.total_lights.isSome = true ∧
          d.original_wattage.isSome = true ∧ d.electricity_rate.isSome = true ∧
          d.smart_light_high_wattage.isSome = true ∧
          d.smart_light_low_wattage.isSome = true ∧ d.high_power_ratio.isSome = true) := by
  constructor
  · rintro ⟨pn, tl, ow, er, os, hw, lw, hr⟩ h
    cases pn <;> cases tl <;> cases ow <;> cases er <;> cases hw <;> cases lw <;> cases hr <;>
      first
        | rfl
        | simp_all
  · rintro ⟨pn, tl, ow, er, os, hw, lw, hr⟩ r h
    cases pn <;> cases tl <;> cases ow <;> cases er <;> cases hw <;> cases lw <;> cases hr <;>
      first
        | exact ⟨rfl, rfl, rfl, rfl, rfl, rfl, rfl⟩
        | simp [calculate_savings] at h

/-- C2 witness: the missing-field direction applied to the initial data
with only `project_name` missing. -/
theorem unavailable_iff_missing_field_witness :
    calculate_savings ⟨none, some 500, some 18, some (3/10), [⟨24, 500⟩],
        some 10, some 2, some (1/4)⟩ = Except.ok none :=
  unavailable_iff_missing_field.1
    ⟨none, some 500, some 18, some (3/10), [⟨24, 500⟩], some 10, some 2, some (1/4)⟩
    (Or.inl rfl)

/-- C3: for a schedule period with `lights_on = 0`, the high/low hours
and all smart-side kWh quantities of that period are exactly 0, for
every `high_power_ratio` in [0,1] (the ratio split is never applied when
no lights are on). -/
theorem zero_lights_period_fields :
    ∀ (ow hw lw hr : ℚ) (p : Period), p.lights = 0 → 0 ≤ hr → hr ≤ 1 →
      periodSmartKwh hw lw hr (1 - hr) p = 0 ∧
      (mkPeriodDetail ow hw lw hr (1 - hr) p).smart_high_hours = 0 ∧
      (mkPeriodDetail ow hw lw hr (1 - hr) p).smart_low_hours = 0 ∧
      (mkPeriodDetail ow hw lw hr (1 - hr) p).smart_high_consumption = 0 ∧
      (mkPeriodDetail ow hw lw hr (1 - hr) p).smart_low_consumption = 0 ∧
      (mkPeriodDetail ow hw lw hr (1 - hr) p).smart_total_consumption = 0 := by
  intro ow hw lw hr p hz h0 h1
  simp [periodSmartKwh, mkPeriodDetail, hz, round2_zero]

/-- C3 witness: a 5-hour period with no lights on, ratio 0.25. -/
theorem zero_lights_period_fields_witness :
    periodSmartKwh 10 2 (1/4) (1 - 1/4) ⟨5, 0⟩ = 0 ∧
    (mkPeriodDetail 18 10 2 (1/4) (1 - 1/4) ⟨5, 0⟩).smart_high_hours = 0 ∧
    (mkPeriodDetail 18 10 2 (1/4) (1 - 1/4) ⟨5, 0⟩).smart_low_hours = 0 ∧
    (mkPeriodDetail 18 10 2 (1/4) (1 - 1/4) ⟨5, 0⟩).smart_high_consumption = 0 ∧
    (mkPeriodDetail 18 10 2 (1/4) (1 - 1/4) ⟨5, 0⟩).smart_low_consumption = 0 ∧
    (mkPeriodDetail 18 10 2 (1/4) (1 - 1/4) ⟨5, 0⟩).smart_total_consumption = 0 :=
  zero_lights_period_fields 18 10 2 (1/4) ⟨5, 0⟩ rfl (by norm_num) (by norm_num)

/-- C4: `calculate_high_brightness` is the monotonic step function with
inclusive upper bracket bounds 20 ↦ 10, 24 ↦ 12, 36 ↦ 16, 60 ↦ 18 and
20 above 60, with the five boundary examples from the spec. -/
theorem calculate_high_brightness_spec :
    (∀ w : ℚ,
      (w ≤ 20 → calculate_high_brightness w = 10) ∧
      (20 < w → w ≤ 24 → calculate_high_brightness w = 12) ∧
      (24 < w → w ≤ 36 → calculate_high_brightness w = 16) ∧
      (36 < w → w ≤ 60 → calculate_high_brightness w = 18) ∧
      (60 < w → calculate_high_brightness w = 20)) ∧
    Monotone calculate_high_brightness ∧
    calculate_high_brightness 20 = 10 ∧
    calculate_high_brightness (200001/10000) = 12 ∧
    calculate_high_brightness 36 = 16 ∧
    calculate_high_brightness 60 = 18 ∧
    calculate_high_brightness 1000 = 20 := by
  have hcases : ∀ w : ℚ,
      (w ≤ 20 → calculate_high_brightness w = 10) ∧
      (20 < w → w ≤ 24 → calculate_high_brightness w = 12) ∧
      (24 < w → w ≤ 36 → calculate_high_brightness w = 16) ∧
      (36 < w → w ≤ 60 → calculate_high_brightness w = 18) ∧
      (60 < w → calculate_high_brightness w = 20) := by
    intro w
    refine ⟨?_, ?_, ?_, ?_, ?_⟩ <;>
      · intros
        unfold calculate_high_brightness
        split_ifs <;> first | rfl | linarith
  refine ⟨hcases, ?_, ?_, ?_, ?_, ?_, ?_⟩
  · intro a b hab
    unfold calculate_high_brightness
    split_ifs <;> linarith
  all_goals norm_num [calculate_high_brightness]

/-- C4 witness: the last bracket applied at 1000 W. -/
theorem calculate_high_brightness_spec_witness :
    calculate_high_brightness 1000 = 20 :=
  (calculate_high_brightness_spec.1 1000).2.2.2.2 (by norm_num)

/-- C5: permuting `operation_schedule` leaves every scalar field of the
result unchanged — the daily totals are commutative sums over the
periods. -/
theorem calculate_savings_schedule_perm :
    ∀ (pn : String) (tl : ℤ) (ow er hw lw hr : ℚ) (s1 s2 : List Period),
      s1.Perm s2 → tl ≠ 0 →
      ∃ r1 r2 : SavingsResult,
        calculate_savings ⟨some pn, some tl, some ow, some er, s1, some hw, some lw, some hr⟩
            = Except.ok (some r1) ∧
        calculate_savings ⟨some pn, some tl, some ow, some er, s2, some hw, some lw, some hr⟩
            = Except.ok (some r2) ∧
        r1.daily_savings_kwh = r2.daily_savings_kwh ∧
        r1.annual_savings_kwh = r2.annual_savings_kwh ∧
        r1.annual_savings_sgd = r2.annual_savings_sgd ∧
        r1.per_light_annual_savings = r2.per_light_annual_savings ∧
        r1.six_year_savings = r2.six_year_savings ∧
        r1.original_daily_consumption = r2.original_daily_consumption ∧
        r1.smart_daily_consumption = r2.smart_daily_consumption := by
  intro pn tl ow er hw lw hr s1 s2 hperm htl
  have hO : originalDailyConsumption ow s1 = originalDailyConsumption ow s2 :=
    (hperm.map (periodOriginalKwh ow)).sum_eq
  have hS : smartDailyConsumption hw lw hr (1 - hr) s1
      = smartDailyConsumption hw lw hr (1 - hr) s2 :=
    (hperm.map (periodSmartKwh hw lw hr (1 - hr))).sum_eq
  refine ⟨_, _, calculate_savings_complete_eq pn tl ow er hw lw hr s1 htl,
    calculate_savings_complete_eq pn tl ow er hw lw hr s2 htl, ?_, ?_, ?_, ?_, ?_, ?_, ?_⟩ <;>
    simp only [hO, hS]

/-- C5 witness: a two-period schedule and its swap. -/
theorem calculate_savings_schedule_perm_witness :
    ∃ r1 r2 : SavingsResult,
      calculate_savings ⟨some "Demo", some 500, some 18, some (3/10),
          [⟨8, 500⟩, ⟨16, 0⟩], some 10, some 2, some (1/4)⟩ = Except.ok (some r1) ∧
      calculate_savings ⟨some "Demo", some 500, some 18, some (3/10),
          [⟨16, 0⟩, ⟨8, 500⟩], some 10, some 2, some (1/4)⟩ = Except.ok (some r2) ∧
      r1.daily_savings_kwh = r2.daily_savings_kwh ∧
      r1.annual_savings_kwh = r2.annual_savings_kwh ∧
      r1.annual_savings_sgd = r2.annual_savings_sgd ∧
      r1.per_light_annual_savings = r2.per_light_annual_savings ∧
      r1.six_year_savings = r2.six_year_savings ∧
      r1.original_daily_consumption = r2.original_daily_consumption ∧
      r1.smart_daily_consumption = r2.smart_daily_consumption :=
  calculate_savings_schedule_perm "Demo" 500 18 (3/10) 10 2 (1/4)
    [⟨8, 500⟩, ⟨16, 0⟩] [⟨16, 0⟩, ⟨8, 500⟩] (List.Perm.swap _ _ _) (by norm_num)

/-- C6: the claimed default can never fire.  With every other required
field set and `high_power_ratio` absent (`None`, its `__init__` value),
`calculate_savings` returns `None` instead of computing with the
documented default ratio 0.25: `self.data.get('high_power_ratio', 0.25)`
is dead as a default because the key always exists, and its `None`
value has already triggered the early `return None`.  This contradicts
the source's own comment `# Default 25% if not set`. -/
theorem missing_ratio_returns_none :
    calculate_savings
        { initialData with
          project_name := some "Demo"
          total_lights := some 500
          original_wattage := some 18
          electricity_rate := some (3/10)
          operation_schedule := [⟨24, 500⟩]
          smart_light_high_wattage := some 10
          smart_light_low_wattage := some 2 }
      = Except.ok none ∧
    Except.ok (none : Option SavingsResult) ≠
      (Except.error PyError.zeroDivisionError : Except PyError (Option SavingsResult)) := by
  constructor
  · rfl
  · simp

/-- C7 counterexample: `validate('electricity_rate', 1.5)` fails and the
failure message carries the bounds, but the field name appears nowhere
in it — refuting the claim that the failure carries the field name. -/
theorem validate_message_lacks_field_name :
    validate_input "electricity_rate" (3/2)
      = (false, "Input value should be between 0.1 and 1") ∧
    listHasSub "electricity_rate".toList
      "Input value should be between 0.1 and 1".toList = false := by
  constructor
  · show (if ¬ ((1/10 : ℚ) ≤ 3/2 ∧ (3/2 : ℚ) ≤ 1) then
        (false, rangeMessage (1/10) 1) else (true, "")) = _
    rw [if_pos (by norm_num)]
    norm_num [rangeMessage, ratStr]
    rfl
  · rfl

/-- C7 amended: validation fails exactly when the field is one of the
five bounded ones and the value lies outside its inclusive bounds, the
failure message carries the permitted bounds (but not the field name —
the caller retains it), any field outside the mapping passes for every
value, and the two spec examples hold. -/
theorem validate_input_spec :
    (∀ (key : String) (value : ℚ),
        (validate_input key value).1 = false ↔
          ∃ lo hi : ℚ, common_sense_rules.lookup key = some (lo, hi) ∧
            (value < lo ∨ hi < value)) ∧
    (∀ (key : String) (lo hi value : ℚ),
        common_sense_rules.lookup key = some (lo, hi) → value < lo ∨ hi < value →
        validate_input key value = (false, rangeMessage lo hi)) ∧
    (∀ (key : String) (value : ℚ),
        common_sense_rules.lookup key = none → validate_input key value = (true, "")) ∧
    validate_input "electricity_rate" (3/2) = (false, rangeMessage (1/10) 1) ∧
    validate_input "electricity_rate" (1/2) = (true, "") := by
  have hsome : ∀ (key : String) (lo hi value : ℚ),
      common_sense_rules.lookup key = some (lo, hi) →
      validate_input key value =
        if ¬ (lo ≤ value ∧ value ≤ hi) then (false, rangeMessage lo hi) else (true, "") := by
    intro key lo hi value hk
    unfold validate_input
    rw [hk]
  have hnone : ∀ (key : String) (value : ℚ),
      common_sense_rules.lookup key = none → validate_input key value = (true, "") := by
    intro key value hk
    unfold validate_input
    rw [hk]
  have hchar : ∀ (key : String) (lo hi value : ℚ),
      common_sense_rules.lookup key = some (lo, hi) → value < lo ∨ hi < value →
      validate_input key value = (false, rangeMessage lo hi) := by
    intro key lo hi value hk hout
    rw [hsome key lo hi value hk, if_pos]
    intro ⟨hlo, hhi⟩
    rcases hout with h | h
    · exact absurd hlo (not_le.mpr h)
    · exact absurd hhi (not_le.mpr h)
  refine ⟨?_, hchar, hnone, ?_, ?_⟩
  · intro key value
    constructor
    · intro hfalse
      rcases hk : common_sense_rules.lookup key with _ | ⟨lo, hi⟩
      · rw [hnone key value hk] at hfalse
        simp at hfalse
      · refine ⟨lo, hi, rfl, ?_⟩
        by_cases hin : lo ≤ value ∧ value ≤ hi
        · rw [hsome key lo hi value hk, if_neg (not_not_intro hin)] at hfalse
          simp at hfalse
        · rcases not_and_or.mp hin with h | h
          · exact Or.inl (not_le.mp h)
          · exact Or.inr (not_le.mp h)
    · rintro ⟨lo, hi, hk, hout⟩
      rw [hchar key lo hi value hk hout]
  · exact hchar "electricity_rate" (1/10) 1 (3/2) rfl (Or.inr (by norm_num))
  · rw [hsome "electricity_rate" (1/10) 1 (1/2) rfl,
      if_neg (not_not_intro (by norm_num))]

/-- C7 witness: the pass-through direction at an unmapped field. -/
theorem validate_input_spec_witness :
    validate_input "project_name" 7 = (true, "") :=
  validate_input_spec.2.2.1 "project_name" 7 rfl

/-- C8: `calculate_duration` converts both times to minutes since
midnight, adds 1440 to the end when it is earlier than the start
(midnight crossing), and returns the difference in hours; with the three
spec examples. -/
theorem calculate_duration_spec :
    (∀ s e : WallTime,
        calculate_duration s e =
          (((if ((e.hour * 60 + e.minute : ℤ)) < ((s.hour * 60 + s.minute : ℤ))
              then (e.hour * 60 + e.minute : ℤ) + 1440
              else (e.hour * 60 + e.minute : ℤ)) - (s.hour * 60 + s.minute : ℤ) : ℤ) : ℚ) / 60) ∧
    calculate_duration ⟨23, 0⟩ ⟨1, 0⟩ = 2 ∧
    calculate_duration ⟨8, 0⟩ ⟨23, 0⟩ = 15 ∧
    calculate_duration ⟨0, 0⟩ ⟨0, 0⟩ = 0 := by
  refine ⟨?_, ?_, ?_, ?_⟩
  · intro s e
    unfold calculate_duration
    norm_num
  all_goals norm_num [calculate_duration]

/-- C9 counterexample: with `total_lights = -1` (non-positive) at
computation time, `calculate_savings` does not fail with the division
error — it returns a fully-computed result (with a negative per-light
figure), refuting the claim that any non-positive `total_lights` fails. -/
theorem negative_total_lights_returns_result :
    calculate_savings ⟨some "Demo", some (-1), some 18, some (3/10), [⟨24, 500⟩],
        some 10, some 2, some (1/4)⟩
      = Except.ok (some ⟨168, 61320, 18396, -18396, 110376,
          [⟨"24 hours", 500, 216, 6, 18, 30, 18, 48, 168⟩], 216, 48⟩) := by
  rw [calculate_savings_complete_eq _ _ _ _ _ _ _ _ (by norm_num)]
  norm_num [SavingsResult.mk.injEq, PeriodDetail.mk.injEq, originalDailyConsumption,
    smartDailyConsumption, periodOriginalKwh, periodSmartKwh, mkPeriodDetail,
    round2, pyRound, ratFloor, ratStr]
  rfl

/-- C9 amended: the division is only ever undefined at exactly
`total_lights = 0`, where the engine fails with the defined, reported
`ZeroDivisionError` condition instead of producing an undefined numeric
value; for every `total_lights ≥ 1` (the validated domain) the division
succeeds and a result is returned (a negative `total_lights` also
divides fine and returns a result, as the counterexample shows). -/
theorem total_lights_zero_division :
    (∀ (pn : String) (ow er hw lw hr : ℚ) (sched : List Period),
        calculate_savings ⟨some pn, some 0, some ow, some er, sched, some hw, some lw, some hr⟩
          = Except.error PyError.zeroDivisionError) ∧
    (∀ (pn : String) (tl : ℤ) (ow er hw lw hr : ℚ) (sched : List Period), 1 ≤ tl →
        ∃ r : SavingsResult,
          calculate_savings ⟨some pn, some tl, some ow, some er, sched, some hw, some lw, some hr⟩
            = Except.ok (some r)) := by
  constructor
  · intro pn ow er hw lw hr sched
    unfold calculate_savings
    simp
  · intro pn tl ow er hw lw hr sched htl
    exact ⟨_, calculate_savings_complete_eq pn tl ow er hw lw hr sched (by omega)⟩

/-- C9 witness: at `total_lights = 500` the computation returns a result. -/
theorem total_lights_zero_division_witness :
    ∃ r : SavingsResult,
      calculate_savings ⟨some "Demo", some 500, some 18, some (3/10), [⟨24, 500⟩],
          some 10, some 2, some (1/4)⟩ = Except.ok (some r) :=
  total_lights_zero_division.2 "Demo" 500 18 (3/10) 10 2 (1/4) [⟨24, 500⟩] (by norm_num)

/-- C10: an empty `operation_schedule` with every other required field
set yields a genuine `SavingsResult` — not the `Unavailable` signal —
with empty `period_details` and every scalar field exactly 0. -/
theorem empty_schedule_zero_result :
    ∀ (pn : String) (tl : ℤ) (ow er hw lw hr : ℚ), tl ≠ 0 →
      calculate_savings ⟨some pn, some tl, some ow, some er, [], some hw, some lw, some hr⟩
          = Except.ok (some ⟨0, 0, 0, 0, 0, [], 0, 0⟩) ∧
      calculate_savings ⟨some pn, some tl, some ow, some er, [], some hw, some lw, some hr⟩
          ≠ Except.ok none := by
  intro pn tl ow er hw lw hr htl
  rw [calculate_savings_complete_eq pn tl ow er hw lw hr [] htl]
  constructor
  · norm_num [SavingsResult.mk.injEq, originalDailyConsumption, smartDailyConsumption,
      round2_zero]
  · simp

/-- C10 witness: the empty schedule at the section-8 parameters. -/
theorem empty_schedule_zero_result_witness :
    calculate_savings ⟨some "Demo", some 500, some 18, some (3/10), [],
        some 10, some 2, some (1/4)⟩ = Except.ok (some ⟨0, 0, 0, 0, 0, [], 0, 0⟩) :=
  (empty_schedule_zero_result "Demo" 500 18 (3/10) 10 2 (1/4) (by norm_num)).1
